import Mathlib

/-!
Verification of the box-geometry / overlap-resolution engine and the
OCR-review annotation state machine of PanelCleaner
(`pcleaner/structures.py` and `pcleaner/gui/ocr_review_driver.py`),
shallowly embedded in Lean.

Python integers are modelled by `Int`; Python floats (the sole float in the
core algorithms is the overlap `threshold` and the float division inside
`Box.overlaps`) are modelled by exact rationals `Rat`; Python floor
division `//` is modelled by `Int.fdiv`.  Fallible operations (list
indexing that can raise `IndexError`, `next` that can raise
`StopIteration`) return `Option`.  The unordered `set` used by
`resolve_overlaps` is modelled by an explicit enumeration-order parameter
constrained by `IsSetOrder`.
-/

namespace PanelCleaner

/-- Embedding of `Box` from `pcleaner/structures.py`: an axis-aligned
rectangle with top-left corner `(x1, y1)` and bottom-right `(x2, y2)`. -/
structure Box where
  x1 : Int
  y1 : Int
  x2 : Int
  y2 : Int
deriving DecidableEq

/-- Embedding of `Box.__contains__`: a point is inside the box, inclusive
on both edges. -/
def Box.containsPoint (b : Box) (p : Int × Int) : Bool :=
  decide (b.x1 ≤ p.1 ∧ p.1 ≤ b.x2 ∧ b.y1 ≤ p.2 ∧ p.2 ≤ b.y2)

/-- Embedding of `Box.area`: `(x2 - x1) * (y2 - y1)`. -/
def Box.area (b : Box) : Int :=
  (b.x2 - b.x1) * (b.y2 - b.y1)

/-- Embedding of `Box.center`, with Python floor division `//`. -/
def Box.center (b : Box) : Int × Int :=
  ((b.x1 + b.x2).fdiv 2, (b.y1 + b.y2).fdiv 2)

/-- Embedding of `Box.merge`: bounding box of both boxes. -/
def Box.merge (b box : Box) : Box :=
  Box.mk (min b.x1 box.x1) (min b.y1 box.y1) (max b.x2 box.x2) (max b.y2 box.y2)

/-- Embedding of `Box.overlaps`: the intersection area divided by the area
of the smaller box (replaced by 1 when that minimum is exactly 0, the
Python `or 1` on a falsy value) exceeds `threshold / 100`.  The float
division is modelled exactly over `Rat`. -/
def Box.overlaps (b other : Box) (threshold : Rat) : Bool :=
  let x_overlap : Int := max 0 (min b.x2 other.x2 - max b.x1 other.x1)
  let y_overlap : Int := max 0 (min b.y2 other.y2 - max b.y1 other.y1)
  let intersection : Int := x_overlap * y_overlap
  let smaller_area : Int := if min b.area other.area = 0 then 1 else min b.area other.area
  decide ((intersection : Rat) / (smaller_area : Rat) > threshold / 100)

/-- Embedding of `Box.overlaps_center`: either box's center lies inside
the other. -/
def Box.overlaps_center (b other : Box) : Bool :=
  other.containsPoint b.center || b.containsPoint other.center

/-- Embedding of `Box.pad`: grow all four sides by `amount`, with `x1, y1`
clamped below at 0 and `x2, y2` clamped above at the canvas size. -/
def Box.pad (b : Box) (amount : Int) (canvas_size : Int × Int) : Box :=
  Box.mk (max (b.x1 - amount) 0) (max (b.y1 - amount) 0)
    (min (b.x2 + amount) canvas_size.1) (min (b.y2 + amount) canvas_size.2)

/-- Embedding of `Box.right_pad`: grow only the right edge, clamped above
at the canvas width. -/
def Box.right_pad (b : Box) (amount : Int) (canvas_size : Int × Int) : Box :=
  Box.mk b.x1 b.y1 (min (b.x2 + amount) canvas_size.1) b.y2

/-- Embedding of the `BoxType` enum selecting one of the four named box
collections of a page. -/
inductive BoxType where
  | BOX
  | EXTENDED_BOX
  | MERGED_EXT_BOX
  | REFERENCE_BOX
deriving DecidableEq

/-- Embedding of `PageData` (the fields that take part in the overlap
algorithms; the lazily cached image size is I/O-dependent and omitted). -/
structure PageData where
  image_path : String
  mask_path : String
  original_path : String
  scale : Rat
  boxes : List Box
  extended_boxes : List Box
  merged_extended_boxes : List Box
  reference_boxes : List Box
deriving DecidableEq

/-- Embedding of `PageData.boxes_from_type`. -/
def PageData.boxes_from_type (p : PageData) (box_type : BoxType) : List Box :=
  match box_type with
  | .BOX => p.boxes
  | .EXTENDED_BOX => p.extended_boxes
  | .MERGED_EXT_BOX => p.merged_extended_boxes
  | .REFERENCE_BOX => p.reference_boxes

/-- Functional counterpart of writing through the list reference returned
by `boxes_from_type` (the `clear` / `extend` in `resolve_overlaps`). -/
def PageData.set_boxes_of_type (p : PageData) (box_type : BoxType) (l : List Box) : PageData :=
  match box_type with
  | .BOX => { p with boxes := l }
  | .EXTENDED_BOX => { p with extended_boxes := l }
  | .MERGED_EXT_BOX => { p with merged_extended_boxes := l }
  | .REFERENCE_BOX => { p with reference_boxes := l }

/-- Embedding of the loop of `PageData.resolve_total_overlaps`: pop the
front of the FIFO queue, collect every remaining queued box whose center
overlaps the popped box, merge them into it sequentially in queue order,
remove them from the queue, and append the result.  Removing the matched
boxes (Python `list.remove` on each collected value) leaves exactly the
boxes failing the center test, since matching is by value. -/
def resolveTotalOverlapsList : List Box → List Box
  | [] => []
  | box :: rest =>
    (List.foldl Box.merge box (rest.filter (fun b => box.overlaps_center b))) ::
      resolveTotalOverlapsList (rest.filter (fun b => ! box.overlaps_center b))
termination_by l => l.length
decreasing_by
  simp only [List.length_cons]
  exact Nat.lt_succ_of_le (List.length_filter_le _ _)

/-- Embedding of `PageData.resolve_total_overlaps`: rewrites the tight
`boxes` collection with the merged result. -/
def PageData.resolve_total_overlaps (p : PageData) : PageData :=
  { p with boxes := resolveTotalOverlapsList p.boxes }

/-- Embedding of the loop of `PageData.resolve_overlaps`, given the order
in which the Python `set` yields its elements: pop a box, collect every
remaining member overlapping it above the threshold, merge them in
sequentially, remove them, and append the result. -/
def resolveOverlapsList (threshold : Rat) : List Box → List Box
  | [] => []
  | box :: rest =>
    (List.foldl Box.merge box (rest.filter (fun b => box.overlaps b threshold))) ::
      resolveOverlapsList threshold (rest.filter (fun b => ! box.overlaps b threshold))
termination_by l => l.length
decreasing_by
  simp only [List.length_cons]
  exact Nat.lt_succ_of_le (List.length_filter_le _ _)

/-- Instrumented variant of `resolveOverlapsList` that also records, for
each emitted cluster, the popped seed box the overlap tests were made
against (first component) next to the merged result (second component). -/
def resolveOverlapsClusters (threshold : Rat) : List Box → List (Box × Box)
  | [] => []
  | box :: rest =>
    (box, List.foldl Box.merge box (rest.filter (fun b => box.overlaps b threshold))) ::
      resolveOverlapsClusters threshold (rest.filter (fun b => ! box.overlaps b threshold))
termination_by l => l.length
decreasing_by
  simp only [List.length_cons]
  exact Nat.lt_succ_of_le (List.length_filter_le _ _)

/-- A valid enumeration order of the Python `set` built from the source
list: duplicate-free and containing exactly the members of the source. -/
def IsSetOrder (src order : List Box) : Prop :=
  order.Nodup ∧ ∀ b : Box, b ∈ order ↔ b ∈ src

/-- Embedding of `PageData.resolve_overlaps(from_type, to_type, threshold)`,
parametrised by the enumeration order of the working `set` (constrained to
`IsSetOrder (p.boxes_from_type from_type) order` by the theorems): the
target collection is cleared and replaced wholesale by the clustering
output. -/
def PageData.resolve_overlaps (p : PageData) (from_type to_type : BoxType)
    (threshold : Rat) (order : List Box) : PageData :=
  let _ := p.boxes_from_type from_type
  p.set_boxes_of_type to_type (resolveOverlapsList threshold order)

/-- Embedding of the `OCRStatus` enum. -/
inductive OCRStatus where
  | Normal
  | Removed
  | Edited
  | EditedRemoved
  | New
deriving DecidableEq

/-- Embedding of `OCRResult`: one reviewable bubble.  `Path` is modelled
as `String`. -/
structure OCRResult where
  path : String
  text : String
  box : Box
  label : String
  status : OCRStatus
deriving DecidableEq

/-- Embedding of `OCRAnalytic`: the immutable analytics snapshot. -/
structure OCRAnalytic where
  num_boxes : Nat
  box_sizes_ocr : List Int
  box_sizes_removed : List Int
  removed_box_data : List (String × String × Box)
deriving DecidableEq

/-- Embedding of `convert_ocr_analytics_to_results`: expand each
snapshot's `removed_box_data` triples, in order, into `Normal` records
labelled by their 1-based position (Python `enumerate(..., start=1)` with
`str(index)`). -/
def convert_ocr_analytics_to_results (ocr_analytics : List OCRAnalytic) :
    List (List OCRResult) :=
  ocr_analytics.map (fun analytic =>
    (analytic.removed_box_data.enum).map (fun ip =>
      OCRResult.mk ip.2.1 ip.2.2.1 ip.2.2.2 (toString (ip.1 + 1)) OCRStatus.Normal))

/-- Embedding of `convert_ocr_results_to_analytics`: per image, keep the
`(path, text, box)` triple of every record whose status is not `Removed`,
set `num_boxes` to the emitted count, and leave both box-size lists
blank. -/
def convert_ocr_results_to_analytics (ocr_results : List (List OCRResult)) :
    List OCRAnalytic :=
  ocr_results.map (fun results =>
    let removed_box_data :=
      (results.filter (fun r => ! decide (r.status = OCRStatus.Removed))).map
        (fun r => (r.path, r.text, r.box))
    OCRAnalytic.mk removed_box_data.length [] [] removed_box_data)

/-- Embedding of `OcrReviewWindow.delete_bubble` acting on the selected
row of one image's record list (`none` models an `IndexError` on an
out-of-range row): a `New` record is popped from the list, otherwise the
status toggles per the transition table. -/
def delete_bubble (results : List OCRResult) (row : Nat) : Option (List OCRResult) :=
  match results.get? row with
  | none => none
  | some r =>
    match r.status with
    | .New => some (results.eraseIdx row)
    | .Removed => some (results.set row { r with status := OCRStatus.Normal })
    | .EditedRemoved => some (results.set row { r with status := OCRStatus.Edited })
    | .Edited => some (results.set row { r with status := OCRStatus.EditedRemoved })
    | .Normal => some (results.set row { r with status := OCRStatus.Removed })

/-- Embedding of `OcrReviewWindow.handle_table_edited` for an edit of the
text cell of the given row: store the new text, promote `Normal` to
`Edited`, then promote `Removed` to `EditedRemoved` (two sequential `if`
statements on the mutated record, exactly as in the source). -/
def handle_table_edited (results : List OCRResult) (row : Nat) (newText : String) :
    Option (List OCRResult) :=
  match results.get? row with
  | none => none
  | some r =>
    let r1 := { r with text := newText }
    let r2 := if r1.status = OCRStatus.Normal then { r1 with status := OCRStatus.Edited } else r1
    let r3 :=
      if r2.status = OCRStatus.Removed then { r2 with status := OCRStatus.EditedRemoved } else r2
    some (results.set row r3)

/-- Embedding of `OcrReviewWindow.reset_single_bubble` for the selected
row: a no-op unless the record is `Edited` or `EditedRemoved`; otherwise
replace it in place with the entry of the freshly expanded original
snapshot whose label matches (`next` over the matching generator; `none`
models the `StopIteration` when no label matches, or an out-of-range
row). -/
def reset_single_bubble (original_analytic : OCRAnalytic) (results : List OCRResult)
    (row : Nat) : Option (List OCRResult) :=
  match results.get? row with
  | none => none
  | some r =>
    if r.status = OCRStatus.Edited ∨ r.status = OCRStatus.EditedRemoved then
      let original_results := (convert_ocr_analytics_to_results [original_analytic]).headD []
      match original_results.find? (fun o => o.label == r.label) with
      | none => none
      | some o => some (results.set row o)
    else
      some results

/-- Embedding of `OcrReviewWindow.add_new_bubble` given the drawn box:
discard boxes of area below 400; otherwise read the path from the first
existing record (`none` models the `IndexError` when the record list is
empty), count the existing `New` records to build the label, and append a
`New` record with empty text. -/
def add_new_bubble (results : List OCRResult) (box : Box) : Option (List OCRResult) :=
  if box.area < 400 then
    some results
  else
    let new_bubbles := results.countP (fun r => decide (r.status = OCRStatus.New))
    match results.head? with
    | none => none
    | some first =>
      some (results ++
        [OCRResult.mk first.path "" box ("New " ++ toString (new_bubbles + 1)) OCRStatus.New])

/-- The containment property named by the specification for `Box.pad`:
all four coordinates lie between 0 and the corresponding canvas
dimension. -/
def BoxWithin (b : Box) (canvas : Int × Int) : Prop :=
  0 ≤ b.x1 ∧ b.x1 ≤ canvas.1 ∧ 0 ≤ b.y1 ∧ b.y1 ≤ canvas.2 ∧
    0 ≤ b.x2 ∧ b.x2 ≤ canvas.1 ∧ 0 ≤ b.y2 ∧ b.y2 ≤ canvas.2

instance (b : Box) (canvas : Int × Int) : Decidable (BoxWithin b canvas) := by
  unfold BoxWithin
  infer_instance

/-- Restatement of the collapse policy in the words of the specification:
for each record in set order whose status is not `Removed`, emit its
`(path, text, box)` triple. -/
def emittedTriples : List OCRResult → List (String × String × Box)
  | [] => []
  | r :: rest =>
    if r.status = OCRStatus.Removed then emittedTriples rest
    else (r.path, r.text, r.box) :: emittedTriples rest

/-!
Helper lemmas shared by the claim theorems.
-/

theorem getOpt_append_len {α : Type} (pre : List α) (r : α) (post : List α) :
    (pre ++ r :: post).get? pre.length = some r := by
  induction pre with
  | nil => rfl
  | cons x xs ih => exact ih

theorem set_append_len {α : Type} (pre : List α) (r x : α) (post : List α) :
    (pre ++ r :: post).set pre.length x = pre ++ x :: post := by
  induction pre with
  | nil => rfl
  | cons y ys ih => simp only [List.cons_append, List.length_cons, List.set_cons_succ, ih]

theorem eraseIdx_append_len {α : Type} (pre : List α) (r : α) (post : List α) :
    (pre ++ r :: post).eraseIdx pre.length = pre ++ post := by
  induction pre with
  | nil => rfl
  | cons y ys ih => simp only [List.cons_append, List.length_cons, List.eraseIdx_cons_succ, ih]

/-- C2: the delete-toggle on the selected record follows the transition
table for all five states: a `New` record is removed from the set
entirely, `Removed` becomes `Normal`, `EditedRemoved` becomes `Edited`,
`Edited` becomes `EditedRemoved`, `Normal` becomes `Removed`; and
toggling delete twice on an `Edited` record returns it to `Edited`. -/
theorem delete_bubble_transition_table (pre post : List OCRResult) (p t : String)
    (b : Box) (l : String) :
    delete_bubble (pre ++ OCRResult.mk p t b l OCRStatus.New :: post) pre.length
        = some (pre ++ post)
    ∧ delete_bubble (pre ++ OCRResult.mk p t b l OCRStatus.Removed :: post) pre.length
        = some (pre ++ OCRResult.mk p t b l OCRStatus.Normal :: post)
    ∧ delete_bubble (pre ++ OCRResult.mk p t b l OCRStatus.EditedRemoved :: post) pre.length
        = some (pre ++ OCRResult.mk p t b l OCRStatus.Edited :: post)
    ∧ delete_bubble (pre ++ OCRResult.mk p t b l OCRStatus.Edited :: post) pre.length
        = some (pre ++ OCRResult.mk p t b l OCRStatus.EditedRemoved :: post)
    ∧ delete_bubble (pre ++ OCRResult.mk p t b l OCRStatus.Normal :: post) pre.length
        = some (pre ++ OCRResult.mk p t b l OCRStatus.Removed :: post)
    ∧ (delete_bubble (pre ++ OCRResult.mk p t b l OCRStatus.Edited :: post) pre.length).bind
        (fun res => delete_bubble res pre.length)
        = some (pre ++ OCRResult.mk p t b l OCRStatus.Edited :: post) := by
  refine ⟨?_, ?_, ?_, ?_, ?_, ?_⟩ <;>
    simp only [delete_bubble, getOpt_append_len, set_append_len, eraseIdx_append_len,
      Option.some_bind]

/-- C5: the text-edit operation stores the new text and transitions
status: `Normal` becomes `Edited`, `Removed` becomes `EditedRemoved`,
and `Edited`, `EditedRemoved` and `New` records keep their status; the
label is never changed. -/
theorem handle_table_edited_transitions (pre post : List OCRResult) (p t : String)
    (b : Box) (l : String) (newText : String) :
    handle_table_edited (pre ++ OCRResult.mk p t b l OCRStatus.Normal :: post) pre.length newText
        = some (pre ++ OCRResult.mk p newText b l OCRStatus.Edited :: post)
    ∧ handle_table_edited (pre ++ OCRResult.mk p t b l OCRStatus.Removed :: post) pre.length newText
        = some (pre ++ OCRResult.mk p newText b l OCRStatus.EditedRemoved :: post)
    ∧ handle_table_edited (pre ++ OCRResult.mk p t b l OCRStatus.Edited :: post) pre.length newText
        = some (pre ++ OCRResult.mk p newText b l OCRStatus.Edited :: post)
    ∧ handle_table_edited (pre ++ OCRResult.mk p t b l OCRStatus.EditedRemoved :: post)
          pre.length newText
        = some (pre ++ OCRResult.mk p newText b l OCRStatus.EditedRemoved :: post)
    ∧ handle_table_edited (pre ++ OCRResult.mk p t b l OCRStatus.New :: post) pre.length newText
        = some (pre ++ OCRResult.mk p newText b l OCRStatus.New :: post) := by
  refine ⟨?_, ?_, ?_, ?_, ?_⟩ <;>
    simp only [handle_table_edited, getOpt_append_len, set_append_len] <;> rfl

theorem emittedTriples_eq_filter (rs : List OCRResult) :
    (rs.filter (fun r => ! decide (r.status = OCRStatus.Removed))).map
        (fun r => (r.path, r.text, r.box))
      = emittedTriples rs := by
  induction rs with
  | nil => rfl
  | cons r rest ih =>
    by_cases h : r.status = OCRStatus.Removed <;>
      simp [emittedTriples, h, ih, List.filter_cons]

/-- C3: converting an Annotation Set to an Analytics Snapshot emits, in
set order, the `(path, text, box)` triple of every record whose status is
not exactly `Removed` (so `EditedRemoved`, `New`, `Edited` and `Normal`
are all kept), drops status and label, sets `num_boxes` to the number of
emitted triples, and emits both size-histogram fields empty. -/
theorem convert_results_to_analytics_spec (ocr_results : List (List OCRResult)) :
    convert_ocr_results_to_analytics ocr_results
      = ocr_results.map (fun rs =>
          OCRAnalytic.mk (emittedTriples rs).length [] [] (emittedTriples rs)) := by
  unfold convert_ocr_results_to_analytics
  refine List.map_congr_left fun rs _ => ?_
  simp only [emittedTriples_eq_filter]

theorem enumFrom_expand_triples (n : Nat) (l : List (String × String × Box)) :
    ((List.enumFrom n l).map (fun ip =>
        OCRResult.mk ip.2.1 ip.2.2.1 ip.2.2.2 (toString (ip.1 + 1)) OCRStatus.Normal)).map
      (fun r => (r.path, r.text, r.box)) = l := by
  induction l generalizing n with
  | nil => rfl
  | cons x xs ih => simp [List.enumFrom, ih]

/-- C6: collapsing an Annotation Set to a Snapshot and expanding it back
yields records whose ordered `(path, text, box)` triples are exactly those
of the original records with status not `Removed`, in the same relative
order; exactly the `Removed` records are absent. -/
theorem collapse_expand_roundtrip (ocr_results : List (List OCRResult)) :
    (convert_ocr_analytics_to_results (convert_ocr_results_to_analytics ocr_results)).map
        (fun rs => rs.map (fun r => (r.path, r.text, r.box)))
      = ocr_results.map (fun rs =>
          (rs.filter (fun r => ! decide (r.status = OCRStatus.Removed))).map
            (fun r => (r.path, r.text, r.box))) := by
  unfold convert_ocr_analytics_to_results convert_ocr_results_to_analytics
  simp only [List.map_map]
  refine List.map_congr_left fun rs _ => ?_
  simp only [Function.comp, List.enum]
  exact enumFrom_expand_triples 0 _

/-- C4: `resolve_total_overlaps` rewrites the tight boxes by the FIFO
algorithm: pop the front element, merge into it (sequentially, in queue
order) every remaining queued box for which `overlaps_center` holds
against it, remove the merged ones, and append the result; output order
is pop order.  `Box(0,0,10,10)` and `Box(2,2,8,8)` collapse to exactly
`Box(0,0,10,10)`, and two non-overlapping boxes pass through unchanged. -/
theorem resolve_total_overlaps_fifo :
    (∀ p : PageData, p.resolve_total_overlaps
        = { p with boxes := resolveTotalOverlapsList p.boxes })
    ∧ (∀ (box : Box) (rest : List Box),
        resolveTotalOverlapsList (box :: rest)
          = List.foldl Box.merge box (rest.filter (fun b => box.overlaps_center b)) ::
              resolveTotalOverlapsList (rest.filter (fun b => ! box.overlaps_center b)))
    ∧ (PageData.mk "" "" "" 1 [Box.mk 0 0 10 10, Box.mk 2 2 8 8]
          [] [] []).resolve_total_overlaps
        = PageData.mk "" "" "" 1 [Box.mk 0 0 10 10] [] [] []
    ∧ (PageData.mk "" "" "" 1 [Box.mk 0 0 10 10, Box.mk 100 100 110 110]
          [] [] []).resolve_total_overlaps
        = PageData.mk "" "" "" 1 [Box.mk 0 0 10 10, Box.mk 100 100 110 110] [] [] [] := by
  refine ⟨fun p => rfl, fun box rest => ?_, ?_, ?_⟩
  · simp only [resolveTotalOverlapsList]
  · simp +decide [PageData.resolve_total_overlaps, resolveTotalOverlapsList]
  · simp +decide [PageData.resolve_total_overlaps, resolveTotalOverlapsList]

/-- C7 as stated is false: `pad` clamps `x1`/`y1` only from below and
`x2`/`y2` only from above, so a box lying beyond the canvas stays outside
it, and padding by 0 moves a box with a negative coordinate; witnessed by
`Box(100,100,110,110)` with canvas `(50,50)`. -/
theorem pad_claim_counterexample :
    ¬ ((∀ (a : Box) (k : Int) (canvas : Int × Int), BoxWithin (a.pad k canvas) canvas)
      ∧ (∀ (a : Box) (canvas : Int × Int), a.pad 0 canvas = a)) := by
  intro h
  exact absurd (h.1 (Box.mk 100 100 110 110) 0 (50, 50)) (by decide)

/-- C7 amended: for every box that lies within the canvas (non-negative
top-left, bottom-right at most the canvas, and non-inverted) and every
non-negative amount, `pad` stays within `[0,0] times canvas`, and padding
by 0 is the identity. -/
theorem pad_within_canvas (a : Box) (k : Int) (canvas : Int × Int)
    (hk : 0 ≤ k) (hx1 : 0 ≤ a.x1) (hy1 : 0 ≤ a.y1) (hx2 : a.x2 ≤ canvas.1)
    (hy2 : a.y2 ≤ canvas.2) (hx12 : a.x1 ≤ a.x2) (hy12 : a.y1 ≤ a.y2) :
    BoxWithin (a.pad k canvas) canvas ∧ a.pad 0 canvas = a := by
  obtain ⟨x1, y1, x2, y2⟩ := a
  simp only [Box.pad, BoxWithin] at *
  refine ⟨⟨?_, ?_, ?_, ?_, ?_, ?_, ?_, ?_⟩, ?_⟩
  any_goals omega
  simp only [Box.mk.injEq]
  refine ⟨?_, ?_, ?_, ?_⟩ <;> omega

theorem pad_within_canvas_witness :
    BoxWithin ((Box.mk 1 2 3 4).pad 2 (10, 10)) (10, 10)
      ∧ (Box.mk 1 2 3 4).pad 0 (10, 10) = Box.mk 1 2 3 4 :=
  pad_within_canvas (Box.mk 1 2 3 4) 2 (10, 10) (by decide) (by decide) (by decide)
    (by decide) (by decide) (by decide) (by decide)

/-- C9: new-record creation reads the path for the new record from the
first existing record, so on an image with an empty record list a new
bubble of area at least 400 hits an index error (`none`) instead of
appending; a non-empty record list always succeeds. -/
theorem add_new_bubble_requires_nonempty (box : Box) (results : List OCRResult) :
    (¬ box.area < 400 → add_new_bubble [] box = none)
    ∧ (results ≠ [] → (add_new_bubble results box).isSome = true) := by
  constructor
  · intro h
    simp only [add_new_bubble, if_neg h]
    rfl
  · intro h
    match results with
    | r :: rest => by_cases h400 : box.area < 400 <;> simp [add_new_bubble, h400]

theorem add_new_bubble_requires_nonempty_witness :
    add_new_bubble [] (Box.mk 0 0 20 20) = none
    ∧ (add_new_bubble [OCRResult.mk "p" "t" (Box.mk 0 0 5 5) "1" OCRStatus.Normal]
        (Box.mk 0 0 20 20)).isSome = true :=
  ⟨(add_new_bubble_requires_nonempty (Box.mk 0 0 20 20) []).1 (by decide),
    (add_new_bubble_requires_nonempty (Box.mk 0 0 20 20)
      [OCRResult.mk "p" "t" (Box.mk 0 0 5 5) "1" OCRStatus.Normal]).2 (by simp)⟩

/-- C8: per-record reset on a record whose status is not `Edited` or
`EditedRemoved` leaves the record list completely unchanged (policy
no-op); on an `Edited` or `EditedRemoved` record it replaces the record
at its position with the entry of the freshly expanded original snapshot
whose label equals the record's label. -/
theorem reset_single_bubble_spec (orig : OCRAnalytic) (results : List OCRResult)
    (row : Nat) (r : OCRResult) (hr : results.get? row = some r) :
    (r.status ≠ OCRStatus.Edited → r.status ≠ OCRStatus.EditedRemoved →
      reset_single_bubble orig results row = some results)
    ∧ (∀ o : OCRResult,
        r.status = OCRStatus.Edited ∨ r.status = OCRStatus.EditedRemoved →
        ((convert_ocr_analytics_to_results [orig]).headD []).find?
            (fun x => x.label == r.label) = some o →
        reset_single_bubble orig results row = some (results.set row o)) := by
  constructor
  · intro h1 h2
    simp only [reset_single_bubble, hr]
    rw [if_neg]
    simp [h1, h2]
  · intro o hst hfind
    simp only [reset_single_bubble, hr]
    rw [if_pos hst, hfind]

theorem reset_single_bubble_spec_witness :
    reset_single_bubble (OCRAnalytic.mk 1 [] [] [("p", "orig", Box.mk 0 0 5 5)])
        [OCRResult.mk "p" "x" (Box.mk 0 0 5 5) "1" OCRStatus.Normal] 0
      = some [OCRResult.mk "p" "x" (Box.mk 0 0 5 5) "1" OCRStatus.Normal]
    ∧ reset_single_bubble (OCRAnalytic.mk 1 [] [] [("p", "orig", Box.mk 0 0 5 5)])
        [OCRResult.mk "p" "edited" (Box.mk 0 0 5 5) "1" OCRStatus.Edited] 0
      = some [OCRResult.mk "p" "orig" (Box.mk 0 0 5 5) "1" OCRStatus.Normal] :=
  ⟨(reset_single_bubble_spec (OCRAnalytic.mk 1 [] [] [("p", "orig", Box.mk 0 0 5 5)])
      [OCRResult.mk "p" "x" (Box.mk 0 0 5 5) "1" OCRStatus.Normal] 0
      (OCRResult.mk "p" "x" (Box.mk 0 0 5 5) "1" OCRStatus.Normal) rfl).1
      (by decide) (by decide),
    (reset_single_bubble_spec (OCRAnalytic.mk 1 [] [] [("p", "orig", Box.mk 0 0 5 5)])
      [OCRResult.mk "p" "edited" (Box.mk 0 0 5 5) "1" OCRStatus.Edited] 0
      (OCRResult.mk "p" "edited" (Box.mk 0 0 5 5) "1" OCRStatus.Edited) rfl).2
      (OCRResult.mk "p" "orig" (Box.mk 0 0 5 5) "1" OCRStatus.Normal)
      (Or.inl rfl) (by rfl)⟩

theorem resolveOverlapsList_eq_map_clusters (threshold : Rat) (l : List Box) :
    resolveOverlapsList threshold l
      = (resolveOverlapsClusters threshold l).map Prod.snd := by
  induction l using resolveOverlapsClusters.induct threshold with
  | case1 => simp only [resolveOverlapsList, resolveOverlapsClusters, List.map_nil]
  | case2 box rest ih =>
    simp only [resolveOverlapsList, resolveOverlapsClusters, List.map_cons, ih]

theorem resolveOverlapsClusters_seed_mem (threshold : Rat) (l : List Box) :
    ∀ q ∈ resolveOverlapsClusters threshold l, q.1 ∈ l := by
  induction l using resolveOverlapsClusters.induct threshold with
  | case1 => intro q hq; simp [resolveOverlapsClusters] at hq
  | case2 box rest ih =>
    intro q hq
    simp only [resolveOverlapsClusters, List.mem_cons] at hq
    rcases hq with hq | hq
    · subst hq; exact List.mem_cons_self _ _
    · exact List.mem_cons_of_mem box (List.mem_of_mem_filter (ih q hq))

theorem resolveOverlapsClusters_seed_pairwise (threshold : Rat) (l : List Box) :
    List.Pairwise (fun c d => c.1.overlaps d.1 threshold = false)
      (resolveOverlapsClusters threshold l) := by
  induction l using resolveOverlapsClusters.induct threshold with
  | case1 =>
    simp only [resolveOverlapsClusters]
    exact List.Pairwise.nil
  | case2 box rest ih =>
    simp only [resolveOverlapsClusters]
    refine List.Pairwise.cons (fun q hq => ?_) ih
    have hmem := resolveOverlapsClusters_seed_mem threshold _ q hq
    have := List.of_mem_filter hmem
    simpa using this

theorem overlaps_ex_AB :
    Box.overlaps (Box.mk 0 0 10 10) (Box.mk 4 4 14 14) 30 = true := by
  norm_num [Box.overlaps, Box.area, min_def, max_def]

theorem overlaps_ex_AC :
    Box.overlaps (Box.mk 0 0 10 10) (Box.mk 10 0 13 4) 30 = false := by
  norm_num [Box.overlaps, Box.area, min_def, max_def]

theorem overlaps_ex_AD :
    Box.overlaps (Box.mk 0 0 10 10) (Box.mk 11 0 14 4) 30 = false := by
  norm_num [Box.overlaps, Box.area, min_def, max_def]

theorem overlaps_ex_CD :
    Box.overlaps (Box.mk 10 0 13 4) (Box.mk 11 0 14 4) 30 = true := by
  norm_num [Box.overlaps, Box.area, min_def, max_def]

theorem overlaps_ex_merged :
    Box.overlaps (Box.mk 0 0 14 14) (Box.mk 10 0 14 4) 30 = true := by
  norm_num [Box.overlaps, Box.area, min_def, max_def]

/-- C1 as stated is false: after `resolve_overlaps`, two boxes of the
output can still satisfy the overlap test, because each cluster is merged
against its popped seed only and the grown merged boxes are never
re-checked against each other.  Witnessed by the four boxes
`(0,0,10,10), (4,4,14,14), (10,0,13,4), (11,0,14,4)` at threshold 30,
whose output contains the overlapping pair `(0,0,14,14)` and
`(10,0,14,4)`. -/
theorem resolve_overlaps_not_pairwise_counterexample :
    ¬ (∀ (p : PageData) (from_type to_type : BoxType) (threshold : Rat) (order : List Box),
        IsSetOrder (p.boxes_from_type from_type) order →
        List.Pairwise (fun a b => a.overlaps b threshold = false)
          ((p.resolve_overlaps from_type to_type threshold order).boxes_from_type to_type)) := by
  intro h
  have hres := h
    (PageData.mk "" "" "" 1
      [Box.mk 0 0 10 10, Box.mk 4 4 14 14, Box.mk 10 0 13 4, Box.mk 11 0 14 4] [] [] [])
    BoxType.BOX BoxType.MERGED_EXT_BOX 30
    [Box.mk 0 0 10 10, Box.mk 4 4 14 14, Box.mk 10 0 13 4, Box.mk 11 0 14 4]
    ⟨by decide, fun b => Iff.rfl⟩
  have heval : ((PageData.mk "" "" "" 1
        [Box.mk 0 0 10 10, Box.mk 4 4 14 14, Box.mk 10 0 13 4, Box.mk 11 0 14 4]
        [] [] []).resolve_overlaps BoxType.BOX BoxType.MERGED_EXT_BOX 30
        [Box.mk 0 0 10 10, Box.mk 4 4 14 14, Box.mk 10 0 13 4,
          Box.mk 11 0 14 4]).boxes_from_type BoxType.MERGED_EXT_BOX
      = [Box.mk 0 0 14 14, Box.mk 10 0 14 4] := by
    simp +decide [PageData.resolve_overlaps, PageData.set_boxes_of_type,
      PageData.boxes_from_type, resolveOverlapsList, overlaps_ex_AB, overlaps_ex_AC,
      overlaps_ex_AD, overlaps_ex_CD, Box.merge]
  rw [heval] at hres
  simp only [List.pairwise_cons, List.mem_singleton] at hres
  have hfalse := hres.1 (Box.mk 10 0 14 4) rfl
  rw [overlaps_ex_merged] at hfalse
  exact absurd hfalse (by decide)

/-- C1 amended: after `resolve_overlaps` the output is exactly the list
of per-cluster merges, and the popped seed boxes of distinct clusters
pairwise fail the overlap test (every box consumed by a later cluster
failed the test against each earlier seed); the merged output boxes
themselves, however, may again overlap above the threshold. -/
theorem resolve_overlaps_seed_clusters (p : PageData) (from_type to_type : BoxType)
    (threshold : Rat) (order : List Box) :
    (p.resolve_overlaps from_type to_type threshold order).boxes_from_type to_type
        = (resolveOverlapsClusters threshold order).map Prod.snd
    ∧ List.Pairwise (fun c d => c.1.overlaps d.1 threshold = false)
        (resolveOverlapsClusters threshold order) := by
  constructor
  · cases to_type <;>
      simp [PageData.resolve_overlaps, PageData.set_boxes_of_type,
        PageData.boxes_from_type, resolveOverlapsList_eq_map_clusters]
  · exact resolveOverlapsClusters_seed_pairwise threshold order

theorem resolveOverlapsList_length_le (threshold : Rat) (l : List Box) :
    (resolveOverlapsList threshold l).length ≤ l.length := by
  induction l using resolveOverlapsClusters.induct threshold with
  | case1 => simp [resolveOverlapsList]
  | case2 box rest ih =>
    simp only [resolveOverlapsList, List.length_cons, Nat.succ_le_succ_iff]
    exact ih.trans (List.length_filter_le _ _)

theorem setOrder_pair_eq (b : Box) (order : List Box) (h : IsSetOrder [b, b] order) :
    order = [b] := by
  obtain ⟨hnd, hmem⟩ := h
  have hb : b ∈ order := (hmem b).mpr (by simp)
  cases order with
  | nil => simp at hb
  | cons x tl =>
    have hx : x = b := by
      have hxm := (hmem x).mp (List.mem_cons_self x tl)
      simpa using hxm
    subst hx
    cases tl with
    | nil => rfl
    | cons y tys =>
      have hy : y = x := by
        have hym := (hmem y).mp (by simp)
        simpa using hym
      subst hy
      simp [List.nodup_cons] at hnd

theorem overlaps_self_100 (b : Box) : b.overlaps b 100 = false := by
  simp only [Box.overlaps, min_self, max_self, decide_eq_false_iff_not, not_lt]
  rcases le_or_lt (b.x2 - b.x1) 0 with hx | hx
  · rw [max_eq_left hx]
    norm_num
  rcases le_or_lt (b.y2 - b.y1) 0 with hy | hy
  · rw [max_eq_left hy]
    norm_num
  have harea : 0 < b.area := mul_pos hx hy
  rw [max_eq_right hx.le, max_eq_right hy.le]
  rw [if_neg (by unfold Box.area at harea ⊢; omega)]
  have h1 : ((100 : Rat) / 100) = 1 := by norm_num
  rw [h1]
  have : ((((b.x2 - b.x1) * (b.y2 - b.y1) : Int) : Rat))
      / (((b.x2 - b.x1) * (b.y2 - b.y1) : Int) : Rat) = 1 := by
    apply div_self
    unfold Box.area at harea
    exact_mod_cast harea.ne.symm
  unfold Box.area
  rw [this]

/-- C10: `resolve_overlaps` draws its working pool from a `set`, so exact
duplicates are collapsed before clustering: the output never has more
boxes than the input has distinct boxes; two identical boxes at
threshold 100 (where the strict ratio test `1 > 1` fails, the second
conjunct) still collapse to a single
output box; `resolve_total_overlaps`, which copies a list, keeps both
copies of a duplicated box failing the center test (the inverted box
`(10,0,0,10)` whose center lies outside itself). -/
theorem resolve_overlaps_dedups (l order order2 : List Box) (b : Box) (threshold : Rat) :
    (IsSetOrder l order → (resolveOverlapsList threshold order).length ≤ l.dedup.length)
    ∧ Box.overlaps b b 100 = false
    ∧ (IsSetOrder [b, b] order2 → resolveOverlapsList 100 order2 = [b])
    ∧ resolveTotalOverlapsList [Box.mk 10 0 0 10, Box.mk 10 0 0 10]
        = [Box.mk 10 0 0 10, Box.mk 10 0 0 10] := by
  refine ⟨fun hso => ?_, overlaps_self_100 b, fun hso => ?_, ?_⟩
  · have hperm : order.Perm l.dedup :=
      (List.perm_ext_iff_of_nodup hso.1 l.nodup_dedup).mpr
        (fun a => by rw [hso.2 a, List.mem_dedup])
    calc (resolveOverlapsList threshold order).length
        ≤ order.length := resolveOverlapsList_length_le threshold order
      _ = l.dedup.length := hperm.length_eq
  · rw [setOrder_pair_eq b order2 hso]
    simp [resolveOverlapsList]
  · simp +decide [resolveTotalOverlapsList]

theorem resolve_overlaps_dedups_witness :
    ((resolveOverlapsList 100 [Box.mk 0 0 5 5]).length
        ≤ ([Box.mk 0 0 5 5, Box.mk 0 0 5 5].dedup).length)
    ∧ Box.overlaps (Box.mk 0 0 5 5) (Box.mk 0 0 5 5) 100 = false
    ∧ resolveOverlapsList 100 [Box.mk 0 0 5 5] = [Box.mk 0 0 5 5]
    ∧ resolveTotalOverlapsList [Box.mk 10 0 0 10, Box.mk 10 0 0 10]
        = [Box.mk 10 0 0 10, Box.mk 10 0 0 10] :=
  ⟨(resolve_overlaps_dedups [Box.mk 0 0 5 5, Box.mk 0 0 5 5] [Box.mk 0 0 5 5]
      [Box.mk 0 0 5 5] (Box.mk 0 0 5 5) 100).1 ⟨by decide, fun x => by simp⟩,
    (resolve_overlaps_dedups [Box.mk 0 0 5 5, Box.mk 0 0 5 5] [Box.mk 0 0 5 5]
      [Box.mk 0 0 5 5] (Box.mk 0 0 5 5) 100).2.1,
    (resolve_overlaps_dedups [Box.mk 0 0 5 5, Box.mk 0 0 5 5] [Box.mk 0 0 5 5]
      [Box.mk 0 0 5 5] (Box.mk 0 0 5 5) 100).2.2.1 ⟨by decide, fun x => by simp⟩,
    (resolve_overlaps_dedups [Box.mk 0 0 5 5, Box.mk 0 0 5 5] [Box.mk 0 0 5 5]
      [Box.mk 0 0 5 5] (Box.mk 0 0 5 5) 100).2.2.2⟩

end PanelCleaner
